import Mathlib

/-!
Shallow embedding of the multi-format extraction pipeline in
`src/doc_processor.py` (class `DocumentProcessor`), together with proofs of
the specification claims about it.

Modelling conventions:
* A byte buffer is a `List Nat` whose elements are 0–255.
* A filename is a `List Char` (Python `str` semantics for `split`/`lower`
  are re-implemented below on `List Char`).
* External libraries (PyMuPDF, python-docx, pandas, PIL, pytesseract,
  easyocr, python-pptx, the JSON parser and serializer) are modelled as an
  `Oracles` record of call-level outcomes: `Except String α` encodes a
  library call that either returns a value or raises an exception whose
  `str(e)` is the `String`.
* Python's strict `bytes.decode("utf-8")` is implemented for real
  (`utf8Decode`), as is the Latin-1 decode (`latin1Decode`), since the
  text-extractor claims depend on their actual behavior.
-/

/-- Python whitespace characters relevant to `str.strip()` /
`str.isspace()` for the strings in this pipeline. -/
def isPySpace (c : Char) : Bool :=
  c = ' ' || c = '\t' || c = '\n' || c = '\r' || c = '\x0b' || c = '\x0c'

/-- Python `s.strip()`: remove leading and trailing whitespace. -/
def pyStrip (s : String) : String :=
  String.mk ((((s.toList.dropWhile isPySpace).reverse).dropWhile isPySpace).reverse)

/-- ASCII lower-casing of one character, modelling Python `str.lower()`
on the ASCII extension strings compared against in the dispatcher. -/
def toLowerChar (c : Char) : Char :=
  if 'A' ≤ c ∧ c ≤ 'Z' then Char.ofNat (c.toNat + 32) else c

/-- Python `s.lower()` on a filename. -/
def lowerList (l : List Char) : List Char := l.map toLowerChar

/-- Python `filename.split(".")[-1]`: the suffix after the last dot, or the
whole string when no dot occurs. -/
def lastExt (fn : List Char) : List Char :=
  ((fn.reverse).takeWhile (fun c => c ≠ '.')).reverse

/-- Python `len(s.split("\n"))`: one more than the number of newlines. -/
def pyLines (s : String) : Nat := s.toList.count '\n' + 1

/-- Strict UTF-8 decoding of a byte list, as Python
`bytes.decode("utf-8")`: rejects stray continuation bytes, overlong forms,
surrogate code points and code points above 0x10FFFF.  `none` models a
raised `UnicodeDecodeError`. -/
def utf8DecodeAux : List Nat → Option (List Char)
  | [] => some []
  | b :: rest =>
    if b < 0x80 then
      (utf8DecodeAux rest).map (fun cs => Char.ofNat b :: cs)
    else if b < 0xC2 then none
    else if b < 0xE0 then
      match rest with
      | b1 :: r =>
        if 0x80 ≤ b1 ∧ b1 < 0xC0 then
          (utf8DecodeAux r).map
            (fun cs => Char.ofNat ((b - 0xC0) * 0x40 + (b1 - 0x80)) :: cs)
        else none
      | [] => none
    else if b < 0xF0 then
      match rest with
      | b1 :: b2 :: r =>
        if (0x80 ≤ b1 ∧ b1 < 0xC0) ∧ (0x80 ≤ b2 ∧ b2 < 0xC0) then
          let cp := (b - 0xE0) * 0x1000 + (b1 - 0x80) * 0x40 + (b2 - 0x80)
          if cp < 0x800 ∨ (0xD800 ≤ cp ∧ cp < 0xE000) then none
          else (utf8DecodeAux r).map (fun cs => Char.ofNat cp :: cs)
        else none
      | _ => none
    else if b < 0xF5 then
      match rest with
      | b1 :: b2 :: b3 :: r =>
        if (0x80 ≤ b1 ∧ b1 < 0xC0) ∧ (0x80 ≤ b2 ∧ b2 < 0xC0) ∧
            (0x80 ≤ b3 ∧ b3 < 0xC0) then
          let cp := (b - 0xF0) * 0x40000 + (b1 - 0x80) * 0x1000 +
            (b2 - 0x80) * 0x40 + (b3 - 0x80)
          if cp < 0x10000 ∨ 0x110000 ≤ cp then none
          else (utf8DecodeAux r).map (fun cs => Char.ofNat cp :: cs)
        else none
      | _ => none
    else none

/-- `bytes.decode("utf-8")` producing a `String`, `none` on failure. -/
def utf8Decode (bs : List Nat) : Option String :=
  (utf8DecodeAux bs).map String.mk

/-- `bytes.decode("latin-1")`: total, maps byte `b` to code point `b`.
Bytes are 0–255; the `% 256` only makes the function total on `Nat`. -/
def latin1Decode (bs : List Nat) : String :=
  String.mk (bs.map (fun b => Char.ofNat (b % 256)))

/-- Classification tags, one per branch of the `if/elif` dispatch chain in
`DocumentProcessor.process_file`. -/
inductive FormatTag where
  | pdf | word | text | csv | excel | image | pptx | json | generic
  deriving DecidableEq, Repr

/-- Per-format metadata dictionaries, one constructor per shape produced by
the source extractors (`empty` models the literal `{}`). -/
inductive Metadata where
  | empty : Metadata
  | pdf (pages : Nat) (title : String) : Metadata
  | word (paragraphs tables : Nat) : Metadata
  | textCounts (lines characters : Nat) : Metadata
  | textEncoding (encoding : String) : Metadata
  | table (rows columns : Nat) (columnNames : List String) : Metadata
  | image (width height : Nat) (mode format : String) : Metadata
  | slides (n : Nat) : Metadata
  | json (kind : String) (keys : Option (List String)) : Metadata
  | genericSize (size : Nat) : Metadata
  deriving DecidableEq, Repr

/-- The result dictionary every extractor returns.  `type` and `error` are
`Option` because the source dictionaries include the key only on the
corresponding branch. -/
structure ExtractionResult where
  success : Bool
  content : String
  metadata : Metadata
  type : Option String
  error : Option String
  deriving DecidableEq, Repr

/-- The `{'success': False, 'error': str(e), 'content': '', 'metadata': {}}`
dictionary produced by every `except` handler. -/
def errResult (e : String) : ExtractionResult :=
  ⟨false, "", Metadata.empty, none, some e⟩

/-- Outcome of `fitz.open` on the bytes: pages in order (each page's
`get_text()`), and the `title` entry of `doc.metadata` when present. -/
structure PdfDoc where
  pages : List String
  title : Option String

/-- Outcome of `docx.Document`: paragraph texts in order, and each table as
rows of cell texts. -/
structure WordDoc where
  paragraphs : List String
  tables : List (List (List String))

/-- Outcome of `pd.read_csv` / `pd.read_excel`: column names and rows. -/
structure Table where
  cols : List String
  rows : List (List String)

/-- Outcome of `PIL.Image.open` (plus the `convert("L")` call): the fields
the extractor reads from the loaded image. -/
structure ImgInfo where
  width : Nat
  height : Nat
  mode : String
  format : String

/-- In-memory value produced by `json.loads`. -/
inductive JVal where
  | jnull : JVal
  | jbool (b : Bool) : JVal
  | jint (n : Int) : JVal
  | jfloat (q : Rat) : JVal
  | jstr (s : String) : JVal
  | jarr (elems : List JVal) : JVal
  | jobj (fields : List (String × JVal)) : JVal

/-- Python `type(data).__name__` on a `json.loads` result. -/
def pyTypeName : JVal → String
  | JVal.jnull => "NoneType"
  | JVal.jbool _ => "bool"
  | JVal.jint _ => "int"
  | JVal.jfloat _ => "float"
  | JVal.jstr _ => "str"
  | JVal.jarr _ => "list"
  | JVal.jobj _ => "dict"

/-- `list(data.keys()) if isinstance(data, dict) else None`. -/
def jsonKeys : JVal → Option (List String)
  | JVal.jobj fields => some (fields.map Prod.fst)
  | _ => none

/-- Call-level outcomes of the external libraries used by one
`process_file` call.  An `Except.error e` models a raised exception with
`str(e) = e`; `secondaryReader = none` models `self.ocr_reader is None`
(EasyOCR initialization failed at startup). -/
structure Oracles where
  pdfParse : List Nat → Except String PdfDoc
  wordParse : List Nat → Except String WordDoc
  csvParse : List Nat → Except String Table
  excelParse : List Nat → Except String Table
  renderTable : Table → String
  imageDecode : List Nat → Except String ImgInfo
  primaryOcr : Except String String
  secondaryReader : Option (Except String (List String))
  pptxParse : List Nat → Except String (List (List (Option String)))
  jsonParse : String → Except String JVal
  jsonDumps : JVal → String

/-- `DocumentProcessor._process_pdf`: concatenate `page.get_text() + "\n"`
over the pages, strip the result, record page count and title (defaulting
to "Unknown"). -/
def processPdf (o : Oracles) (bs : List Nat) : ExtractionResult :=
  match o.pdfParse bs with
  | Except.ok d =>
    ⟨true, pyStrip (String.join (d.pages.map (fun p => p ++ "\n"))),
      Metadata.pdf d.pages.length (d.title.getD "Unknown"),
      some "PDF Document", none⟩
  | Except.error e => errResult e

/-- `DocumentProcessor._process_word`: keep paragraphs whose stripped text
is non-empty (appending the original text), render each table row as
stripped cells joined by " | ", rows joined by newlines, tables joined by
blank lines after a "Tables:" header that appears only when at least one
table exists. -/
def processWord (o : Oracles) (bs : List Nat) : ExtractionResult :=
  match o.wordParse bs with
  | Except.ok d =>
    let paras := d.paragraphs.filter (fun p => pyStrip p ≠ "")
    let tablesContent := d.tables.map (fun t =>
      String.intercalate "\n"
        (t.map (fun row => String.intercalate " | " (row.map pyStrip))))
    let fullContent :=
      String.intercalate "\n" paras ++
        (if tablesContent ≠ [] then
          "\n\nTables:\n" ++ String.intercalate "\n\n" tablesContent
        else "")
    ⟨true, fullContent, Metadata.word paras.length tablesContent.length,
      some "Word Document", none⟩
  | Except.error e => errResult e

/-- `DocumentProcessor._process_text`: decode UTF-8; on
`UnicodeDecodeError` fall back to Latin-1 (total, so the inner `except`
handler of the source is unreachable and not modelled). -/
def processText (bs : List Nat) : ExtractionResult :=
  match utf8Decode bs with
  | some content =>
    ⟨true, content, Metadata.textCounts (pyLines content) content.length,
      some "Text File", none⟩
  | none =>
    ⟨true, latin1Decode bs, Metadata.textEncoding "latin-1",
      some "Text File", none⟩

/-- Shared body of `_process_csv` / `_process_excel` content: header lines
followed by `df.head(10).to_string()`, i.e. the pandas rendering of only
the first 10 rows. -/
def tabularContent (hdr : String) (o : Oracles) (t : Table) : String :=
  hdr ++ "Rows: " ++ toString t.rows.length ++ ", Columns: " ++
    toString t.cols.length ++ "\n" ++ "Columns: " ++
    String.intercalate ", " t.cols ++ "\n\n" ++ "First 10 rows:\n" ++
    o.renderTable ⟨t.cols, t.rows.take 10⟩

/-- `DocumentProcessor._process_csv`. -/
def processCsv (o : Oracles) (bs : List Nat) : ExtractionResult :=
  match o.csvParse bs with
  | Except.ok t =>
    ⟨true, tabularContent "CSV Data Analysis:\n" o t,
      Metadata.table t.rows.length t.cols.length t.cols,
      some "CSV File", none⟩
  | Except.error e => errResult e

/-- `DocumentProcessor._process_excel`. -/
def processExcel (o : Oracles) (bs : List Nat) : ExtractionResult :=
  match o.excelParse bs with
  | Except.ok t =>
    ⟨true, tabularContent "Excel Data Analysis:\n" o t,
      Metadata.table t.rows.length t.cols.length t.cols,
      some "Excel File", none⟩
  | Except.error e => errResult e

/-- `text_content` after the pytesseract stage: the returned text, or `""`
when the engine raised (the handler swallows the exception and the
variable keeps its initial value). -/
def ocrPrimaryText (o : Oracles) : String :=
  match o.primaryOcr with
  | Except.ok t => t
  | Except.error _ => ""

/-- `DocumentProcessor._process_image`, instrumented: the second component
records whether the EasyOCR fallback (`self.ocr_reader.readtext`) was
invoked.  The fallback branch runs only when the primary text strips to
empty and a reader instance exists; inside it, `' '.join` of the region
fragments replaces the text unless `readtext` raised, in which case the
text keeps its previous value. -/
def processImageAux (o : Oracles) (bs : List Nat) : ExtractionResult × Bool :=
  match o.imageDecode bs with
  | Except.error e => (errResult e, false)
  | Except.ok img =>
    let t0 := ocrPrimaryText o
    let step :=
      if pyStrip t0 = "" then
        match o.secondaryReader with
        | some (Except.ok frags) => (String.intercalate " " frags, true)
        | some (Except.error _) => (t0, true)
        | none => (t0, false)
      else (t0, false)
    let t2 := if pyStrip step.1 = "" then "No text detected in image" else step.1
    (⟨true, "Image OCR Results:\n" ++ t2,
      Metadata.image img.width img.height img.mode img.format,
      some "Image File", none⟩, step.2)

/-- `DocumentProcessor._process_image` as seen by the coordinator. -/
def processImage (o : Oracles) (bs : List Nat) : ExtractionResult :=
  (processImageAux o bs).1

/-- Whether one call of the image extractor invoked the secondary (EasyOCR)
engine. -/
def secondaryInvoked (o : Oracles) (bs : List Nat) : Bool :=
  (processImageAux o bs).2

/-- `DocumentProcessor._process_powerpoint`: slides enumerated from 1, one
"Slide N:" header per slide and a bulleted line per shape that has a text
attribute with non-empty stripped text. -/
def processPowerpoint (o : Oracles) (bs : List Nat) : ExtractionResult :=
  match o.pptxParse bs with
  | Except.ok slides =>
    let rendered := (slides.enumFrom 1).map (fun p =>
      "Slide " ++ toString p.1 ++ ":\n" ++
        String.join (p.2.filterMap (fun sh =>
          match sh with
          | some txt =>
            if pyStrip txt ≠ "" then some ("- " ++ pyStrip txt ++ "\n")
            else none
          | none => none)))
    ⟨true, String.intercalate "\n" rendered, Metadata.slides slides.length,
      some "PowerPoint Presentation", none⟩
  | Except.error e => errResult e

/-- `DocumentProcessor._process_json`: decode UTF-8 then `json.loads`; on
success re-serialize (2-space indent, `ensure_ascii=False`, modelled by
the `jsonDumps` oracle) and record the top-level type name and the key
list (None for non-dict values). -/
def processJson (o : Oracles) (bs : List Nat) : ExtractionResult :=
  match utf8Decode bs with
  | none => errResult "invalid utf-8"
  | some s =>
    match o.jsonParse s with
    | Except.ok v =>
      ⟨true, "JSON File Analysis:\n" ++ o.jsonDumps v,
        Metadata.json (pyTypeName v) (jsonKeys v), some "JSON File", none⟩
    | Except.error e => errResult e

/-- `DocumentProcessor._process_generic`: UTF-8 decode or the fixed
"Cannot process this file type" error. -/
def processGeneric (bs : List Nat) : ExtractionResult :=
  match utf8Decode bs with
  | some content =>
    ⟨true, content, Metadata.genericSize content.length,
      some "Generic Text", none⟩
  | none => errResult "Cannot process this file type"

/-- The extension tests of the dispatch chain, applied to the lowered
extension string, in source order. -/
def classifyExt (e : List Char) : FormatTag :=
  if e = "pdf".toList then FormatTag.pdf
  else if e = "docx".toList ∨ e = "doc".toList then FormatTag.word
  else if e = "txt".toList then FormatTag.text
  else if e = "csv".toList then FormatTag.csv
  else if e = "xlsx".toList ∨ e = "xls".toList then FormatTag.excel
  else if e = "png".toList ∨ e = "jpg".toList ∨ e = "jpeg".toList ∨
      e = "gif".toList ∨ e = "bmp".toList ∨ e = "tiff".toList ∨
      e = "webp".toList then FormatTag.image
  else if e = "pptx".toList then FormatTag.pptx
  else if e = "json".toList then FormatTag.json
  else FormatTag.generic

/-- The Format Classifier: `filename.split('.')[-1].lower()` fed to the
dispatch chain. -/
def classify (fn : List Char) : FormatTag :=
  classifyExt (lowerList (lastExt fn))

/-- The extension strings that select a non-generic extractor. -/
def knownExts : List (List Char) :=
  ["pdf".toList, "docx".toList, "doc".toList, "txt".toList, "csv".toList,
    "xlsx".toList, "xls".toList, "png".toList, "jpg".toList,
    "jpeg".toList, "gif".toList, "bmp".toList, "tiff".toList,
    "webp".toList, "pptx".toList, "json".toList]

/-- Dispatch to the extractor selected by the classifier. -/
def dispatch (o : Oracles) (tag : FormatTag) (bs : List Nat) :
    ExtractionResult :=
  match tag with
  | FormatTag.pdf => processPdf o bs
  | FormatTag.word => processWord o bs
  | FormatTag.text => processText bs
  | FormatTag.csv => processCsv o bs
  | FormatTag.excel => processExcel o bs
  | FormatTag.image => processImage o bs
  | FormatTag.pptx => processPowerpoint o bs
  | FormatTag.json => processJson o bs
  | FormatTag.generic => processGeneric bs

/-- The `try` body of `DocumentProcessor.process_file` as an
exception-transparent computation: classification plus dispatch.  Every
extractor traps its own failures, so the body itself never raises; an
`Except.error` value would model an exception reaching the coordinator's
handler.  The declared MIME type `fileType` is accepted but never read,
exactly as in the source. -/
def processFileCore (o : Oracles) (bs : List Nat) (fn : List Char)
    (fileType : String) : Except String ExtractionResult :=
  Except.ok (dispatch o (classify fn) bs)

/-- `DocumentProcessor.process_file`: the `try` body wrapped in the
coordinator's `except Exception` handler, which converts any escaped
exception into the generic error-result shape. -/
def processFile (o : Oracles) (bs : List Nat) (fn : List Char)
    (fileType : String) : ExtractionResult :=
  match processFileCore o bs fn fileType with
  | Except.ok r => r
  | Except.error e => errResult e

/-- A concrete oracle assignment used to evaluate the pipeline at closed
inputs (the library stubs are irrelevant to the branches those inputs
exercise). -/
def trivOracles : Oracles where
  pdfParse := fun _ => Except.error "bad pdf"
  wordParse := fun _ => Except.error "bad docx"
  csvParse := fun _ => Except.error "bad csv"
  excelParse := fun _ => Except.error "bad xlsx"
  renderTable := fun _ => ""
  imageDecode := fun _ => Except.error "bad image"
  primaryOcr := Except.ok ""
  secondaryReader := none
  pptxParse := fun _ => Except.error "bad pptx"
  jsonParse := fun _ => Except.error "bad json"
  jsonDumps := fun _ => ""

lemma typeError_processPdf (o : Oracles) (bs : List Nat) :
    ((processPdf o bs).type ≠ none ∧ (processPdf o bs).error = none) ∨
    ((processPdf o bs).type = none ∧ (processPdf o bs).error ≠ none) := by
  unfold processPdf; split <;> simp [errResult]

lemma typeError_processWord (o : Oracles) (bs : List Nat) :
    ((processWord o bs).type ≠ none ∧ (processWord o bs).error = none) ∨
    ((processWord o bs).type = none ∧ (processWord o bs).error ≠ none) := by
  unfold processWord; split <;> simp [errResult]

lemma typeError_processText (bs : List Nat) :
    ((processText bs).type ≠ none ∧ (processText bs).error = none) ∨
    ((processText bs).type = none ∧ (processText bs).error ≠ none) := by
  unfold processText; split <;> simp

lemma typeError_processCsv (o : Oracles) (bs : List Nat) :
    ((processCsv o bs).type ≠ none ∧ (processCsv o bs).error = none) ∨
    ((processCsv o bs).type = none ∧ (processCsv o bs).error ≠ none) := by
  unfold processCsv; split <;> simp [errResult]

lemma typeError_processExcel (o : Oracles) (bs : List Nat) :
    ((processExcel o bs).type ≠ none ∧ (processExcel o bs).error = none) ∨
    ((processExcel o bs).type = none ∧ (processExcel o bs).error ≠ none) := by
  unfold processExcel; split <;> simp [errResult]

lemma typeError_processImage (o : Oracles) (bs : List Nat) :
    ((processImage o bs).type ≠ none ∧ (processImage o bs).error = none) ∨
    ((processImage o bs).type = none ∧ (processImage o bs).error ≠ none) := by
  unfold processImage processImageAux; split <;> simp [errResult]

lemma typeError_processPowerpoint (o : Oracles) (bs : List Nat) :
    ((processPowerpoint o bs).type ≠ none ∧
      (processPowerpoint o bs).error = none) ∨
    ((processPowerpoint o bs).type = none ∧
      (processPowerpoint o bs).error ≠ none) := by
  unfold processPowerpoint; split <;> simp [errResult]

lemma typeError_processJson (o : Oracles) (bs : List Nat) :
    ((processJson o bs).type ≠ none ∧ (processJson o bs).error = none) ∨
    ((processJson o bs).type = none ∧ (processJson o bs).error ≠ none) := by
  unfold processJson
  split
  · simp [errResult]
  · split <;> simp [errResult]

lemma typeError_processGeneric (bs : List Nat) :
    ((processGeneric bs).type ≠ none ∧ (processGeneric bs).error = none) ∨
    ((processGeneric bs).type = none ∧ (processGeneric bs).error ≠ none) := by
  unfold processGeneric; split <;> simp [errResult]

lemma typeError_dispatch (o : Oracles) (tag : FormatTag) (bs : List Nat) :
    ((dispatch o tag bs).type ≠ none ∧ (dispatch o tag bs).error = none) ∨
    ((dispatch o tag bs).type = none ∧ (dispatch o tag bs).error ≠ none) := by
  cases tag with
  | pdf => exact typeError_processPdf o bs
  | word => exact typeError_processWord o bs
  | text => exact typeError_processText bs
  | csv => exact typeError_processCsv o bs
  | excel => exact typeError_processExcel o bs
  | image => exact typeError_processImage o bs
  | pptx => exact typeError_processPowerpoint o bs
  | json => exact typeError_processJson o bs
  | generic => exact typeError_processGeneric bs

/-- C1: for every oracle assignment, byte buffer, filename and declared
MIME type, the coordinator's `try` body completes without an exception
(`Except.ok`) and `process_file` returns exactly its result; the handler
converting an escaped exception into `success = false`, populated error,
empty content and empty metadata is part of `processFile`'s definition. -/
theorem extraction_c1 (o : Oracles) (bs : List Nat) (fn : List Char)
    (ft : String) :
    ∃ r : ExtractionResult,
      processFileCore o bs fn ft = Except.ok r ∧ processFile o bs fn ft = r :=
  ⟨dispatch o (classify fn) bs, rfl, rfl⟩

/-- C2, as stated, is false: on the empty byte buffer with filename
"a.txt" the result has empty `content`, `type` set and no `error`, so
neither of the claim's two branches holds. -/
theorem extraction_c2_counterexample :
    ¬ ((((processFile trivOracles [] ("a.txt".toList) "text/plain").content ≠ "" ∧
          (processFile trivOracles [] ("a.txt".toList) "text/plain").type ≠ none) ∨
         (processFile trivOracles [] ("a.txt".toList) "text/plain").error ≠ none) ∧
        ¬ (((processFile trivOracles [] ("a.txt".toList) "text/plain").content ≠ "" ∧
            (processFile trivOracles [] ("a.txt".toList) "text/plain").type ≠ none) ∧
           (processFile trivOracles [] ("a.txt".toList) "text/plain").error ≠ none)) := by
  decide

/-- C2 (amended): for every input, exactly one of {the `type` field is
set} or {the `error` field is populated} holds — never both, never
neither; the `content` field may be empty on a successful extraction. -/
theorem extraction_c2 (o : Oracles) (bs : List Nat) (fn : List Char)
    (ft : String) :
    (((processFile o bs fn ft).type ≠ none) ∨
      ((processFile o bs fn ft).error ≠ none)) ∧
    ¬ (((processFile o bs fn ft).type ≠ none) ∧
      ((processFile o bs fn ft).error ≠ none)) := by
  have he : processFile o bs fn ft = dispatch o (classify fn) bs := rfl
  rw [he]
  rcases typeError_dispatch o (classify fn) bs with ⟨h1, h2⟩ | ⟨h1, h2⟩
  · exact ⟨Or.inl h1, fun hc => hc.2 h2⟩
  · exact ⟨Or.inr h2, fun hc => hc.1 h1⟩

/-- C3: the secondary (EasyOCR) engine is never invoked when the primary
(pytesseract) pass returned text that is non-empty after stripping; and
whenever it is invoked, the primary text stripped to empty and a secondary
engine instance was available. -/
theorem extraction_c3 (o : Oracles) (bs : List Nat) :
    (∀ (img : ImgInfo) (t : String), o.imageDecode bs = Except.ok img →
      o.primaryOcr = Except.ok t → pyStrip t ≠ "" →
      secondaryInvoked o bs = false) ∧
    (secondaryInvoked o bs = true →
      pyStrip (ocrPrimaryText o) = "" ∧ o.secondaryReader.isSome = true) := by
  constructor
  · intro img t hd hp hne
    unfold secondaryInvoked processImageAux
    rw [hd]
    have ht : ocrPrimaryText o = t := by unfold ocrPrimaryText; rw [hp]
    simp [ht, hne]
  · intro hinv
    unfold secondaryInvoked processImageAux at hinv
    cases hd : o.imageDecode bs with
    | error e => simp [hd] at hinv
    | ok img =>
      by_cases hs : pyStrip (ocrPrimaryText o) = ""
      · cases hr : o.secondaryReader with
        | none => simp [hd, hs, hr] at hinv
        | some x => exact ⟨hs, by simp [hr]⟩
      · simp [hd, hs] at hinv

/-- Oracle assignment for a decodable image whose primary OCR pass
returns "Hello". -/
def w3Oracles : Oracles :=
  { trivOracles with
    imageDecode := fun _ => Except.ok ⟨8, 6, "RGB", "PNG"⟩
    primaryOcr := Except.ok "Hello"
    secondaryReader := some (Except.ok ["x"]) }

theorem extraction_c3_witness : secondaryInvoked w3Oracles [] = false :=
  (extraction_c3 w3Oracles []).1 ⟨8, 6, "RGB", "PNG"⟩ "Hello" rfl rfl
    (by decide)

/-- C4: whenever strict UTF-8 decoding of the bytes fails, the plain-text
extractor still succeeds via the total Latin-1 fallback, and the metadata
records the fallback encoding name instead of line/character counts. -/
theorem extraction_c4 (bs : List Nat) (h : utf8Decode bs = none) :
    (processText bs).success = true ∧
    (processText bs).content = latin1Decode bs ∧
    (processText bs).metadata = Metadata.textEncoding "latin-1" := by
  unfold processText
  rw [h]
  exact ⟨rfl, rfl, rfl⟩

theorem extraction_c4_witness :
    utf8Decode [255] = none ∧
    (processText [255]).success = true ∧
    (processText [255]).content = latin1Decode [255] ∧
    (processText [255]).metadata = Metadata.textEncoding "latin-1" :=
  ⟨by decide, extraction_c4 [255] (by decide)⟩

/-- C5: on every successfully parsed CSV or spreadsheet table, the content
preview is rendered from only the first 10 rows (`rows.take 10`, hence at
most 10 rows regardless of the input size), while the metadata reports the
true total row count. -/
theorem extraction_c5 (o : Oracles) (bs1 bs2 : List Nat) (tc tx : Table)
    (hc : o.csvParse bs1 = Except.ok tc)
    (hx : o.excelParse bs2 = Except.ok tx) :
    (∃ pre, (processCsv o bs1).content =
      pre ++ o.renderTable ⟨tc.cols, tc.rows.take 10⟩) ∧
    (tc.rows.take 10).length ≤ 10 ∧
    (processCsv o bs1).metadata =
      Metadata.table tc.rows.length tc.cols.length tc.cols ∧
    (∃ pre, (processExcel o bs2).content =
      pre ++ o.renderTable ⟨tx.cols, tx.rows.take 10⟩) ∧
    (tx.rows.take 10).length ≤ 10 ∧
    (processExcel o bs2).metadata =
      Metadata.table tx.rows.length tx.cols.length tx.cols := by
  unfold processCsv processExcel tabularContent
  rw [hc, hx]
  refine ⟨⟨_, rfl⟩, ?_, rfl, ⟨_, rfl⟩, ?_, rfl⟩ <;>
    simp [List.length_take]

/-- A 12-row table exercising the preview truncation. -/
def w5Table : Table :=
  ⟨["a"], [["1"], ["2"], ["3"], ["4"], ["5"], ["6"], ["7"], ["8"], ["9"],
    ["10"], ["11"], ["12"]]⟩

/-- Oracle assignment whose CSV and spreadsheet parsers return
`w5Table`. -/
def w5Oracles : Oracles :=
  { trivOracles with
    csvParse := fun _ => Except.ok w5Table
    excelParse := fun _ => Except.ok w5Table }

theorem extraction_c5_witness :
    (∃ pre, (processCsv w5Oracles []).content =
      pre ++ w5Oracles.renderTable ⟨w5Table.cols, w5Table.rows.take 10⟩) ∧
    (w5Table.rows.take 10).length ≤ 10 ∧
    (processCsv w5Oracles []).metadata =
      Metadata.table w5Table.rows.length w5Table.cols.length w5Table.cols ∧
    (∃ pre, (processExcel w5Oracles []).content =
      pre ++ w5Oracles.renderTable ⟨w5Table.cols, w5Table.rows.take 10⟩) ∧
    (w5Table.rows.take 10).length ≤ 10 ∧
    (processExcel w5Oracles []).metadata =
      Metadata.table w5Table.rows.length w5Table.cols.length w5Table.cols :=
  extraction_c5 w5Oracles [] [] w5Table w5Table rfl rfl

lemma takeWhile_ne_dot_of_not_mem (l : List Char) (h : '.' ∉ l) :
    l.takeWhile (fun c => c ≠ '.') = l := by
  rw [List.takeWhile_eq_self_iff]
  intro x hx
  simp only [decide_eq_true_eq]
  exact fun e => h (e ▸ hx)

lemma lastExt_of_no_dot (fn : List Char) (h : '.' ∉ fn) : lastExt fn = fn := by
  unfold lastExt
  rw [takeWhile_ne_dot_of_not_mem fn.reverse (by simpa using h),
    List.reverse_reverse]

lemma classifyExt_generic_iff (e : List Char) :
    classifyExt e = FormatTag.generic ↔ e ∉ knownExts := by
  unfold classifyExt knownExts
  split_ifs with h1 h2 h3 h4 h5 h6 h7 h8
  · simp_all
  · rcases h2 with h | h <;> simp_all
  · simp_all
  · simp_all
  · rcases h5 with h | h <;> simp_all
  · rcases h6 with h | h | h | h | h | h | h <;> simp_all
  · simp_all
  · simp_all
  · simp_all

/-- C6, as stated, is false: the dot-free filename "txt" is classified as
the text format (the whole filename is taken as the extension) and the
coordinator dispatches it to the plain-text extractor, not to the generic
fallback. -/
theorem extraction_c6_counterexample :
    ('.' ∉ ("txt".toList)) ∧
    classify ("txt".toList) = FormatTag.text ∧
    FormatTag.text ≠ FormatTag.generic ∧
    processFile trivOracles [] ("txt".toList) "" = processText [] := by
  decide

/-- C6 (amended): for a filename with no '.', the classifier treats the
entire lower-cased filename as the extension; such a filename is
classified (and dispatched) as generic exactly when its lower-cased form
is not itself one of the recognized extension strings. -/
theorem extraction_c6 (fn : List Char) (h : '.' ∉ fn) :
    classify fn = classifyExt (lowerList fn) ∧
    (classify fn = FormatTag.generic ↔ lowerList fn ∉ knownExts) ∧
    ∀ (o : Oracles) (bs : List Nat) (ft : String),
      processFile o bs fn ft = dispatch o (classifyExt (lowerList fn)) bs := by
  have hl : lastExt fn = fn := lastExt_of_no_dot fn h
  refine ⟨?_, ?_, ?_⟩
  · unfold classify; rw [hl]
  · unfold classify; rw [hl]; exact classifyExt_generic_iff (lowerList fn)
  · intro o bs ft
    unfold processFile processFileCore classify
    rw [hl]

theorem extraction_c6_witness :
    classify ("README".toList) = FormatTag.generic ↔
      lowerList ("README".toList) ∉ knownExts :=
  (extraction_c6 ("README".toList) (by decide)).2.1

/-- C7: when the bytes decode as a valid image and both OCR passes yield
only whitespace (or raise), the image extractor still succeeds with the
sentinel content, and the metadata records the image size, color mode and
source format. -/
theorem extraction_c7 (o : Oracles) (bs : List Nat) (img : ImgInfo)
    (hd : o.imageDecode bs = Except.ok img)
    (hp : pyStrip (ocrPrimaryText o) = "")
    (hs : ∀ frags, o.secondaryReader = some (Except.ok frags) →
      pyStrip (String.intercalate " " frags) = "") :
    processImage o bs =
      ⟨true, "Image OCR Results:\nNo text detected in image",
        Metadata.image img.width img.height img.mode img.format,
        some "Image File", none⟩ := by
  unfold processImage processImageAux
  rw [hd]
  cases hr : o.secondaryReader with
  | none => simp [hp, hr]
  | some x =>
    cases x with
    | ok frags => simp [hp, hr, hs frags hr]
    | error e => simp [hp, hr]

/-- Oracle assignment for a decodable image where the primary pass returns
whitespace and no secondary engine instance exists. -/
def w7Oracles : Oracles :=
  { trivOracles with
    imageDecode := fun _ => Except.ok ⟨4, 3, "L", "BMP"⟩
    primaryOcr := Except.ok "  " }

theorem extraction_c7_witness :
    processImage w7Oracles [] =
      ⟨true, "Image OCR Results:\nNo text detected in image",
        Metadata.image 4 3 "L" "BMP", some "Image File", none⟩ :=
  extraction_c7 w7Oracles [] ⟨4, 3, "L", "BMP"⟩ rfl (by decide)
    (fun frags h => by simp [w7Oracles, trivOracles] at h)

/-- C8: on every byte buffer whose UTF-8 decoding parses as JSON, the
structured-data extractor succeeds, the metadata records the top-level
kind, and a key list is recorded exactly when the top-level value is a
mapping. -/
theorem extraction_c8 (o : Oracles) (bs : List Nat) (s : String) (v : JVal)
    (hdec : utf8Decode bs = some s) (hp : o.jsonParse s = Except.ok v) :
    (processJson o bs).success = true ∧
    (processJson o bs).metadata = Metadata.json (pyTypeName v) (jsonKeys v) ∧
    ((∃ ks, jsonKeys v = some ks) ↔ ∃ fields, v = JVal.jobj fields) := by
  unfold processJson
  split
  · rename_i heq
    rw [heq] at hdec
    simp at hdec
  · rename_i s2 heq
    rw [heq] at hdec
    injection hdec with hs
    subst hs
    split
    · rename_i v2 heq2
      rw [hp] at heq2
      injection heq2 with hv
      subst hv
      refine ⟨rfl, rfl, ?_⟩
      cases v <;> simp [jsonKeys]
    · rename_i e2 heq2
      rw [hp] at heq2
      simp at heq2

/-- Oracle assignment whose JSON parser returns a one-key mapping. -/
def w8Oracles : Oracles :=
  { trivOracles with
    jsonParse := fun _ => Except.ok (JVal.jobj [("a", JVal.jnull)]) }

theorem extraction_c8_witness :
    (processJson w8Oracles []).success = true ∧
    (processJson w8Oracles []).metadata =
      Metadata.json (pyTypeName (JVal.jobj [("a", JVal.jnull)]))
        (jsonKeys (JVal.jobj [("a", JVal.jnull)])) ∧
    ((∃ ks, jsonKeys (JVal.jobj [("a", JVal.jnull)]) = some ks) ↔
      ∃ fields, JVal.jobj [("a", JVal.jnull)] = JVal.jobj fields) :=
  extraction_c8 w8Oracles [] "" (JVal.jobj [("a", JVal.jnull)]) (by decide)
    rfl

/-- C9: the declared MIME type argument is never read, so the result of
`process_file` is identical for any two declared MIME type values. -/
theorem extraction_c9 (o : Oracles) (bs : List Nat) (fn : List Char)
    (ft1 ft2 : String) :
    processFile o bs fn ft1 = processFile o bs fn ft2 := rfl

/-- C10: whenever the bytes decode as a valid image, the image extractor's
content begins with the exact "Image OCR Results:" line, whatever the OCR
outcome. -/
theorem extraction_c10 (o : Oracles) (bs : List Nat) (img : ImgInfo)
    (hd : o.imageDecode bs = Except.ok img) :
    ∃ rest, (processImage o bs).content = "Image OCR Results:\n" ++ rest := by
  unfold processImage processImageAux
  rw [hd]
  exact ⟨_, rfl⟩

theorem extraction_c10_witness :
    ∃ rest, (processImage w7Oracles []).content =
      "Image OCR Results:\n" ++ rest :=
  extraction_c10 w7Oracles [] ⟨4, 3, "L", "BMP"⟩ rfl
